import Mathlib

/-!
Shallow embedding of `src/webgpu-world/src/Main.ts` (the `Main` class of the
WebGPU instancing demo): the uniform-slot pool rebuilt by `resetInstance`,
the startup control flow of `init`, and the per-tick control flow of
`render`.  GPU buffer handles are represented by the natural number order in
which `createBuffer` was called on them; a `VertexUniform` slot is
identified with its buffer handle, since the source creates the buffer once
per slot and only mutates its contents afterwards.  JavaScript numbers are
modelled as real numbers; the `Math` library (an external collaborator) is
passed in as an explicit environment.
-/

namespace WebGPUWorld

/-- Modelled from the spec: the external JS `Math` collaborator used by
`Main` (`Math.PI`, `Math.cos`, `Math.sin`, `Math.atan2`, `Math.sqrt`).
`atan2` takes its arguments in the JS order `atan2 y x`. -/
structure MathEnv where
  pi : ℝ
  cos : ℝ → ℝ
  sin : ℝ → ℝ
  atan2 : ℝ → ℝ → ℝ
  sqrt : ℝ → ℝ

/-- Modelled from the spec: an RGB color triple as produced by
`RGB.createFromHSV` (the `RGB` module is outside `src/`, so the conversion
itself stays an abstract function `ℝ → ℝ → ℝ → RGBColor`). -/
structure RGBColor where
  r : ℝ
  g : ℝ
  b : ℝ

/-- The five `Math.random()` draws consumed for one object in the
`resetInstance` loop (`Main.ts` lines 206-210), in source order:
x, y, z, rotationX, rotationZ. -/
structure RandDraws where
  dx : ℝ
  dy : ℝ
  dz : ℝ
  drx : ℝ
  drz : ℝ

/-- Modelled from the spec: `SceneObject` (`webgpu/SceneObject.ts`, outside
`src/`) carries position, rotation and scale fields plus a nullable
reference to a `VertexUniform`; the reference is modelled as the slot's
buffer handle (`Option Nat`).  Fresh objects start with zeroed transform
fields and unit scale, matching the fields `Main.resetInstance` then
overwrites. -/
structure SceneObject where
  x : ℝ := 0
  y : ℝ := 0
  z : ℝ := 0
  rotationX : ℝ := 0
  rotationY : ℝ := 0
  rotationZ : ℝ := 0
  scaleX : ℝ := 1
  scaleY : ℝ := 1
  scaleZ : ℝ := 1
  vertexUniform : Option Nat := none

/-- The pool-related fields of `Main`: the live list `cubeList`, the free
list `cubeUniformList` (a queue: `push` appends, `shift` removes at the
front), the number of `VertexUniform` buffers ever created for the pool
(fresh handles are allocated in order), the requested instance count
`cubeNum` and the `useModel` flag.  The free list holds the raw nullable
references moved off discarded objects (`Main.ts` line 186 pushes
`this.cubeList[i].vertexUniform as VertexUniform`, an unchecked cast). -/
structure PoolState where
  cubeList : List SceneObject
  cubeUniformList : List (Option Nat)
  nextUniformId : Nat
  cubeNum : Nat
  useModel : Bool

/-- Main.RAD = Math.PI / 180 (`Main.ts` line 16). -/
noncomputable def RAD (pi : ℝ) : ℝ := pi / 180

/-- Local constant `cubeRange` of `resetInstance` (`Main.ts` line 199). -/
def cubeRange : ℝ := 100

/-- The material color computed for one freshly placed object
(`Main.ts` line 221):
`RGB.createFromHSV(Math.atan2(obj.z, obj.x) / Main.RAD,
 0.8 * Math.sqrt(obj.x * obj.x + obj.z * obj.z) / (cubeRange / 2), 0.9)`. -/
noncomputable def instanceColor (m : MathEnv) (hsv : ℝ → ℝ → ℝ → RGBColor)
    (o : SceneObject) : RGBColor :=
  hsv (m.atan2 o.z o.x / RAD m.pi)
    (0.8 * m.sqrt (o.x * o.x + o.z * o.z) / (cubeRange / 2)) 0.9

/-- Result of the construction loop of `resetInstance`: the objects pushed
onto `cubeList`, the remaining free list, the updated creation counter, and
the log of `baseColor` writes (slot reference, written color) performed at
`Main.ts` line 222. -/
structure BuildResult where
  objs : List SceneObject
  free : List (Option Nat)
  nextId : Nat
  writes : List (Option Nat × RGBColor)

/-- The loop of `Main.resetInstance` (`Main.ts` lines 203-226): for each
`i` below `cubeNum`, build a fresh `SceneObject` with randomized placement,
pop a `VertexUniform` from the front of the free list if it is non-empty,
otherwise create a new one (`new VertexUniform(); createBuffer(gpu)` =
fresh handle `nextId`), assign it, and write the placement-derived base
color into it.  Arguments: current loop index, remaining iteration count,
current free list, current creation counter. -/
noncomputable def buildInstances (m : MathEnv) (hsv : ℝ → ℝ → ℝ → RGBColor)
    (rand : Nat → RandDraws) (cubeScale : ℝ) :
    Nat → Nat → List (Option Nat) → Nat → BuildResult
  | _, 0, free, nextId => ⟨[], free, nextId, []⟩
  | i, n + 1, free, nextId =>
    let d := rand i
    let step : Option Nat × List (Option Nat) × Nat :=
      match free with
      | u :: rest => (u, rest, nextId)
      | [] => (some nextId, [], nextId + 1)
    let obj : SceneObject :=
      { x := (d.dx - 0.5) * cubeRange
        y := (d.dy - 0.5) * cubeRange
        z := (d.dz - 0.5) * cubeRange
        rotationX := d.drx * (m.pi * 2)
        rotationY := 0
        rotationZ := d.drz * (m.pi * 2)
        scaleX := cubeScale
        scaleY := cubeScale
        scaleZ := cubeScale
        vertexUniform := step.1 }
    let rest := buildInstances m hsv rand cubeScale (i + 1) n step.2.1 step.2.2
    ⟨obj :: rest.objs, rest.free, rest.nextId,
      (step.1, instanceColor m hsv obj) :: rest.writes⟩

/-- `Main.resetInstance` (`Main.ts` lines 183-227): push every live
object's uniform reference onto the free list (in pool order, appended
after the existing free entries), clear `cubeList`, then rebuild
`cubeNum` objects with `buildInstances` (scale 4.0 in model mode, 2.0
otherwise).  Returns the new pool state and the log of base-color
writes. -/
noncomputable def resetInstance (m : MathEnv) (hsv : ℝ → ℝ → ℝ → RGBColor)
    (rand : Nat → RandDraws) (st : PoolState) :
    PoolState × List (Option Nat × RGBColor) :=
  let free0 := st.cubeUniformList ++ st.cubeList.map (·.vertexUniform)
  let cubeScale : ℝ := if st.useModel then 4.0 else 2.0
  let r := buildInstances m hsv rand cubeScale 0 st.cubeNum free0 st.nextUniformId
  ({ st with
      cubeList := r.objs
      cubeUniformList := r.free
      nextUniformId := r.nextId }, r.writes)

/-- The instance-count slider handler (`Main.ts` lines 70-73): store the
new count in `cubeNum`, then rebuild the pool. -/
noncomputable def resize (m : MathEnv) (hsv : ℝ → ℝ → ℝ → RGBColor)
    (rand : Nat → RandDraws) (st : PoolState) (value : Nat) : PoolState :=
  (resetInstance m hsv rand { st with cubeNum := value }).1

/-- A sequence of resize requests, each with its own random stream
(`rands k` is the stream of the k-th rebuild). -/
noncomputable def resizeSeq (m : MathEnv) (hsv : ℝ → ℝ → ℝ → RGBColor)
    (rands : Nat → Nat → RandDraws) : List Nat → PoolState → PoolState
  | [], st => st
  | n :: rest, st =>
    resizeSeq m hsv (fun k => rands (k + 1)) rest (resize m hsv (rands 0) st n)

/-- The pool fields as first initialized by `Main.init`
(`Main.ts` lines 152-153): both lists empty, no buffer created yet. -/
def emptyPool : PoolState :=
  { cubeList := [], cubeUniformList := [], nextUniformId := 0,
    cubeNum := 0, useModel := false }

/-- All uniform-slot references held by the pool: the live bindings in pool
order followed by the free list. -/
def poolSlots (st : PoolState) : List (Option Nat) :=
  st.cubeList.map (·.vertexUniform) ++ st.cubeUniformList

/-- Pool health invariant: every reference held by the pool is non-null,
and the held buffer handles are a permutation of all handles ever created
(`0, ..., nextUniformId - 1`) — so no handle is referenced twice and none
is leaked. -/
def PoolInv (st : PoolState) : Prop :=
  (∀ u ∈ poolSlots st, u.isSome) ∧
    ((poolSlots st).filterMap id).Perm (List.range st.nextUniformId)

/-- A geometry collaborator (`Cube` or the loaded `GLTF` model): a vertex
buffer handle and a vertex count, the two fields `Main.render` reads
(`geometry.vertexBuffer`, `geometry.numVertices`). -/
structure Primitive where
  vertexBuffer : Nat
  numVertices : Nat

/-- Load action of a render-pass attachment at encoder creation
(`WebGPULoadAction.clear` / `WebGPULoadAction.load`). -/
inductive LoadAction where
  | clear
  | load
  deriving DecidableEq

/-- Which pipeline state a pass binds (`cubeRenderPipelineState` or
`lightHelperRenderPipelineState`). -/
inductive PipelineKind where
  | cube
  | lightHelper
  deriving DecidableEq

/-- Primitive type passed to `drawPrimitives`. -/
inductive PrimitiveType where
  | triangle
  | linestrip
  deriving DecidableEq

/-- Recoverable-per-the-spec error conditions during a tick. -/
inductive RenderError where
  | surfaceUnavailable
  deriving DecidableEq

/-- Observable encoding of one render pass: the load actions captured by
the pass descriptor when the encoder is created, the pipeline bound, the
geometry buffer bound at vertex slot 0, and the `drawPrimitives` calls
issued (their common primitive type, per-call vertex count, and how many
draws the pass makes). -/
structure PassTrace where
  colorLoadAction : LoadAction
  depthLoadAction : LoadAction
  pipeline : PipelineKind
  vertexBuffer0 : Nat
  primitiveType : PrimitiveType
  vertexCount : Nat
  drawCalls : Nat
  deriving DecidableEq

/-- Observable outcome of one `render` invocation: the passes encoded in
order, whether the drawable was presented and the command buffer
committed, whether the next tick was scheduled (`requestAnimationFrame`,
`Main.ts` line 314), and the error, if any, that aborted the tick. -/
structure FrameTrace where
  passes : List PassTrace
  presented : Bool
  committed : Bool
  scheduledNext : Bool
  error : Option RenderError
  deriving DecidableEq

/-- The `Main` fields touched by `render`, beyond the pool: the light
helper object, the two geometries, and the frame counter `time` (an
integer: initialized to 0, incremented by 1 per tick). -/
structure RenderState where
  pool : PoolState
  lightHelper : SceneObject
  cube : Primitive
  model : Primitive
  time : Nat

/-- The per-object animation step of `Main.render` (`Main.ts` lines
242-247): `((this.time + i * 7) / 50 << 0) % 10 === 0` selects a
`rotationY += 0.2` tick, any other residue a `rotationX += 0.01` tick.
`time` and `i` are non-negative integers, so the float division truncated
by `<< 0` is natural-number division. -/
noncomputable def animateObj (time i : Nat) (o : SceneObject) : SceneObject :=
  if ((time + i * 7) / 50) % 10 = 0 then
    { o with rotationY := o.rotationY + 0.2 }
  else
    { o with rotationX := o.rotationX + 0.01 }

/-- The animation loop of `Main.render` (`Main.ts` lines 239-248), applied
to the tail of `cubeList` starting at index `i`. -/
noncomputable def animateList (time : Nat) : Nat → List SceneObject → List SceneObject
  | _, [] => []
  | i, o :: rest => animateObj time i o :: animateList time (i + 1) rest

/-- One invocation of `Main.render` (`Main.ts` lines 229-315), with the
drawable returned by `this.gpu.nextDrawable()` supplied by the environment
(`none` models a failed acquisition).  In source order: move the light
helper along the orbiting light direction, animate every pooled object,
increment `time`, then acquire the drawable.  The source dereferences the
drawable unconditionally (`drawable.texture`, line 259), so a failed
acquisition throws out of `render` before any pass is encoded and before
`requestAnimationFrame` (line 314) can schedule the next tick; the field
mutations already performed persist on the `Main` instance.  With a
drawable, pass 1 (instances) is encoded with clear load actions for color
and depth, pass 2 (light helper) with load for both, and the next tick is
scheduled. -/
noncomputable def renderTick (m : MathEnv) (drawable : Option Nat)
    (st : RenderState) : RenderState × FrameTrace :=
  let rad : ℝ := (st.time : ℝ) / 100
  let lightDirection : ℝ × ℝ × ℝ := (m.cos rad, 0.4, m.sin rad)
  let lightHelper' :=
    { st.lightHelper with
        x := lightDirection.1 * 80
        y := lightDirection.2.1 * 80
        z := lightDirection.2.2 * 80 }
  let cubeList' := animateList st.time 0 st.pool.cubeList
  let st' : RenderState :=
    { st with
        pool := { st.pool with cubeList := cubeList' }
        lightHelper := lightHelper'
        time := st.time + 1 }
  match drawable with
  | none =>
    (st', { passes := [], presented := false, committed := false,
            scheduledNext := false, error := some .surfaceUnavailable })
  | some _ =>
    let geometry := if st.pool.useModel then st.model else st.cube
    let pass1 : PassTrace :=
      { colorLoadAction := .clear, depthLoadAction := .clear,
        pipeline := .cube, vertexBuffer0 := geometry.vertexBuffer,
        primitiveType := .triangle, vertexCount := geometry.numVertices,
        drawCalls := cubeList'.length }
    let pass2 : PassTrace :=
      { colorLoadAction := .load, depthLoadAction := .load,
        pipeline := .lightHelper, vertexBuffer0 := st.cube.vertexBuffer,
        primitiveType := .linestrip, vertexCount := st.cube.numVertices,
        drawCalls := 1 }
    (st', { passes := [pass1, pass2], presented := true, committed := true,
            scheduledNext := true, error := none })

/-- The startup conditions `Main.init` branches on: whether
`WebGPURenderingContext` is in `window` (line 54), whether
`createLibrary` returned a non-null library, and whether each of the three
`functionWithName` lookups (lines 99-101) returned a non-null function. -/
structure InitEnv where
  webgpuSupported : Bool
  libraryOk : Bool
  hasVertexMain : Bool
  hasVertexMain2 : Bool
  hasFragmentMain : Bool
  deriving DecidableEq

/-- Observable outcome of `Main.init`: whether the visible error class was
set on `document.body` (line 55), whether init threw an uncaught
exception, and whether control reached `this.render()` (line 180). -/
structure InitResult where
  errorClassSet : Bool
  crashed : Bool
  renderStarted : Bool
  deriving DecidableEq

/-- Control flow of `Main.init` (`Main.ts` lines 52-181).  If WebGPU is
absent, the body class is set to `error` and init returns (lines 54-57).
Otherwise, `library.functionWithName` is invoked at line 99 before any
null check, so a null library throws.  If any of the three shader entry
points is missing, the guard at line 103 returns silently — no error
class is set.  Otherwise initialization completes and `this.render()` is
reached. -/
def init (e : InitEnv) : InitResult :=
  if !e.webgpuSupported then
    { errorClassSet := true, crashed := false, renderStarted := false }
  else if !e.libraryOk then
    { errorClassSet := false, crashed := true, renderStarted := false }
  else if !(e.hasVertexMain && e.hasVertexMain2 && e.hasFragmentMain) then
    { errorClassSet := false, crashed := false, renderStarted := false }
  else
    { errorClassSet := false, crashed := false, renderStarted := true }

/-- JS `Math.atan2 y x`: the argument of the complex number `x + y*I`,
valued in `(-π, π]`. -/
noncomputable def jsAtan2 (y x : ℝ) : ℝ := Complex.arg ⟨x, y⟩

/-- The real `Math` collaborator. -/
noncomputable def realMath : MathEnv :=
  { pi := Real.pi, cos := Real.cos, sin := Real.sin,
    atan2 := jsAtan2, sqrt := Real.sqrt }

/-- The hue argument passed to `RGB.createFromHSV` at `Main.ts` line 221,
under the real `Math`: `Math.atan2(obj.z, obj.x) / Main.RAD`. -/
noncomputable def hueArg (x z : ℝ) : ℝ :=
  realMath.atan2 z x / RAD realMath.pi

/-- The saturation argument passed to `RGB.createFromHSV` at `Main.ts`
line 221, under the real `Math`:
`0.8 * Math.sqrt(obj.x * obj.x + obj.z * obj.z) / (cubeRange / 2)`. -/
noncomputable def satArg (x z : ℝ) : ℝ :=
  0.8 * realMath.sqrt (x * x + z * z) / (cubeRange / 2)

/-- A trivial `Math` collaborator, used to instantiate theorems on
concrete inputs. -/
noncomputable def zeroMath : MathEnv :=
  { pi := 0, cos := fun _ => 0, sin := fun _ => 0,
    atan2 := fun _ _ => 0, sqrt := fun _ => 0 }

/-- A trivial HSV-to-RGB conversion, used to instantiate theorems on
concrete inputs. -/
def constHSV : ℝ → ℝ → ℝ → RGBColor := fun h s v => ⟨h, s, v⟩

/-- A trivial random draw, used to instantiate theorems on concrete
inputs. -/
def zeroDraws : RandDraws := ⟨0, 0, 0, 0, 0⟩

theorem length_filterMap_id_of_isSome {α : Type _} :
    ∀ l : List (Option α), (∀ u ∈ l, u.isSome) →
      (l.filterMap id).length = l.length
  | [], _ => rfl
  | a :: t, h => by
    obtain ⟨b, rfl⟩ := Option.isSome_iff_exists.mp (h a (by simp))
    have ht := length_filterMap_id_of_isSome t (fun u hu => h u (by simp [hu]))
    simp [ht]

theorem nodup_of_filterMap_id_nodup {α : Type _} :
    ∀ l : List (Option α), (∀ u ∈ l, u.isSome) →
      (l.filterMap id).Nodup → l.Nodup
  | [], _, _ => List.nodup_nil
  | a :: t, h, hn => by
    obtain ⟨b, rfl⟩ := Option.isSome_iff_exists.mp (h a (by simp))
    have ht : ∀ u ∈ t, u.isSome := fun u hu => h u (by simp [hu])
    have hcons : ((some b :: t).filterMap id) = b :: t.filterMap id := by simp
    rw [hcons] at hn
    obtain ⟨hb, hn'⟩ := List.nodup_cons.mp hn
    refine List.nodup_cons.mpr ⟨?_, nodup_of_filterMap_id_nodup t ht hn'⟩
    intro hmem
    exact hb (List.mem_filterMap.mpr ⟨some b, hmem, rfl⟩)

/-- Closed form of the `resetInstance` construction loop: the uniforms
bound to the new objects are the first `n` entries of the free list
followed by freshly created handles, the free list loses its first `n`
entries, and exactly `n - free.length` new buffers are created (none when
the free list suffices). -/
theorem buildInstances_spec (m : MathEnv) (hsv : ℝ → ℝ → ℝ → RGBColor)
    (rand : Nat → RandDraws) (s : ℝ) :
    ∀ (n i : Nat) (free : List (Option Nat)) (nextId : Nat),
      (buildInstances m hsv rand s i n free nextId).objs.map (·.vertexUniform)
          = (free ++ (List.range' nextId (n - free.length)).map some).take n ∧
        (buildInstances m hsv rand s i n free nextId).free = free.drop n ∧
        (buildInstances m hsv rand s i n free nextId).nextId
          = nextId + (n - free.length) ∧
        (buildInstances m hsv rand s i n free nextId).objs.length = n
  | 0, i, free, nextId => by simp [buildInstances]
  | n + 1, i, u :: rest, nextId => by
    obtain ⟨h1, h2, h3, h4⟩ :=
      buildInstances_spec m hsv rand s n (i + 1) rest nextId
    refine ⟨?_, ?_, ?_, ?_⟩ <;>
      simp [buildInstances, h1, h2, h3, h4, Nat.succ_sub_succ]
  | n + 1, i, [], nextId => by
    obtain ⟨h1, h2, h3, h4⟩ :=
      buildInstances_spec m hsv rand s n (i + 1) [] (nextId + 1)
    have hfull : ((List.range' (nextId + 1) n).map some).length = n := by simp
    refine ⟨?_, ?_, ?_, ?_⟩
    · simp [buildInstances, h1, List.range'_succ,
        List.take_of_length_le (le_of_eq hfull)]
    · simp [buildInstances, h2]
    · simp [buildInstances, h3]; omega
    · simp [buildInstances, h4]

theorem poolInv_slot_count (st : PoolState) (h : PoolInv st) :
    st.cubeList.length + st.cubeUniformList.length = st.nextUniformId := by
  have h1 := length_filterMap_id_of_isSome (poolSlots st) h.1
  have h2 := h.2.length_eq
  simp only [poolSlots, List.length_append, List.length_map,
    List.length_range] at h1 h2
  omega

/-- Effect of one `resetInstance` call on a healthy pool: the live list
has exactly `cubeNum` objects, the creation counter grows to
`max nextUniformId cubeNum` (so no buffer is created while a free slot
remains), and the pool invariant is preserved. -/
theorem resetInstance_spec (m : MathEnv) (hsv : ℝ → ℝ → ℝ → RGBColor)
    (rand : Nat → RandDraws) (st : PoolState) (hinv : PoolInv st) :
    (resetInstance m hsv rand st).1.cubeList.length = st.cubeNum ∧
    (resetInstance m hsv rand st).1.nextUniformId
        = max st.nextUniformId st.cubeNum ∧
    PoolInv (resetInstance m hsv rand st).1 := by
  obtain ⟨hsome, hperm⟩ := hinv
  set N := st.nextUniformId with hN
  set n := st.cubeNum with hn
  set free0 := st.cubeUniformList ++ st.cubeList.map (·.vertexUniform)
    with hfree0
  set s : ℝ := if st.useModel then 4.0 else 2.0 with hs
  obtain ⟨hmap, hfree, hnext, hlen⟩ :=
    buildInstances_spec m hsv rand s n 0 free0 N
  have hp0 : free0.Perm (poolSlots st) := List.perm_append_comm
  have hsome0 : ∀ u ∈ free0, u.isSome := fun u hu => hsome u (hp0.mem_iff.mp hu)
  have hpermf : (free0.filterMap id).Perm (List.range N) :=
    (hp0.filterMap id).trans hperm
  have hlen0 : free0.length = N := by
    have ha := length_filterMap_id_of_isSome free0 hsome0
    have hb := hpermf.length_eq
    simp only [List.length_range] at hb
    omega
  set L := free0 ++ (List.range' N (n - free0.length)).map some with hL
  have hst : (resetInstance m hsv rand st).1 =
      { st with
          cubeList := (buildInstances m hsv rand s 0 n free0 N).objs
          cubeUniformList := (buildInstances m hsv rand s 0 n free0 N).free
          nextUniformId := (buildInstances m hsv rand s 0 n free0 N).nextId } :=
    rfl
  have hdrop : free0.drop n = L.drop n := by
    rcases le_or_lt n free0.length with hc | hc
    · have h0 : n - free0.length = 0 := by omega
      simp [hL, h0]
    · have hLlen : L.length = n := by
        simp only [hL, List.length_append, List.length_map, List.length_range']
        omega
      rw [List.drop_eq_nil_of_le (by omega),
        List.drop_eq_nil_of_le (le_of_eq hLlen)]
  have hslots : poolSlots (resetInstance m hsv rand st).1 = L := by
    rw [poolSlots, hst]
    simp only
    rw [hmap, hfree, hdrop, List.take_append_drop]
  refine ⟨?_, ?_, ?_, ?_⟩
  · rw [hst]; exact hlen
  · rw [hst]; simp only [hnext, hlen0]; omega
  · intro u hu
    rw [hslots, hL] at hu
    rcases List.mem_append.mp hu with h | h
    · exact hsome0 u h
    · obtain ⟨v, _, rfl⟩ := List.mem_map.mp h
      rfl
  · rw [hslots, hst]
    simp only [hnext, hlen0]
    have hfm : L.filterMap id
        = free0.filterMap id ++ List.range' N (n - N) := by
      rw [hL, List.filterMap_append, hlen0]
      congr 1
      simp [List.filterMap_map, Function.comp_def, List.filterMap_some]
    rw [hfm]
    have hcat : (List.range N ++ List.range' N (n - N)).Perm
        (List.range (N + (n - N))) := by
      rw [List.range_add, List.range'_eq_map_range]
    exact ((hpermf.append_right _).trans hcat)

theorem resize_spec (m : MathEnv) (hsv : ℝ → ℝ → ℝ → RGBColor)
    (rand : Nat → RandDraws) (st : PoolState) (value : Nat)
    (hinv : PoolInv st) :
    (resize m hsv rand st value).cubeList.length = value ∧
    (resize m hsv rand st value).nextUniformId
        = max st.nextUniformId value ∧
    PoolInv (resize m hsv rand st value) := by
  have hinv' : PoolInv { st with cubeNum := value } := hinv
  exact resetInstance_spec m hsv rand { st with cubeNum := value } hinv'

theorem emptyPool_inv : PoolInv emptyPool := by
  constructor
  · intro u hu
    simp [poolSlots, emptyPool] at hu
  · simp [poolSlots, emptyPool]

theorem poolInv_live_facts (st : PoolState) (h : PoolInv st) :
    (∀ o ∈ st.cubeList, o.vertexUniform.isSome) ∧
      (st.cubeList.map (·.vertexUniform)).Nodup := by
  obtain ⟨hsome, hperm⟩ := h
  constructor
  · intro o ho
    exact hsome _ (List.mem_append_left _ (List.mem_map.mpr ⟨o, ho, rfl⟩))
  · have hnd : (poolSlots st).Nodup :=
      nodup_of_filterMap_id_nodup _ hsome
        (hperm.nodup_iff.mpr (List.nodup_range _))
    exact hnd.of_append_left

theorem resizeSeq_inv (m : MathEnv) (hsv : ℝ → ℝ → ℝ → RGBColor) :
    ∀ (ns : List Nat) (rands : Nat → Nat → RandDraws) (st : PoolState),
      PoolInv st → PoolInv (resizeSeq m hsv rands ns st)
  | [], _, _, h => h
  | n :: rest, rands, st, h =>
    resizeSeq_inv m hsv rest (fun k => rands (k + 1)) _
      (resize_spec m hsv (rands 0) st n h).2.2

theorem resizeSeq_last (m : MathEnv) (hsv : ℝ → ℝ → ℝ → RGBColor)
    (N : Nat) :
    ∀ (ns : List Nat) (rands : Nat → Nat → RandDraws) (st : PoolState),
      PoolInv st →
      (resizeSeq m hsv rands (ns ++ [N]) st).cubeList.length = N ∧
        PoolInv (resizeSeq m hsv rands (ns ++ [N]) st)
  | [], rands, st, h => by
    simp only [List.nil_append, resizeSeq]
    have hr := resize_spec m hsv (rands 0) st N h
    exact ⟨hr.1, hr.2.2⟩
  | n :: rest, rands, st, h => by
    simp only [List.cons_append, resizeSeq]
    exact resizeSeq_last m hsv N rest (fun k => rands (k + 1)) _
      (resize_spec m hsv (rands 0) st n h).2.2

/-- C1: for every instance count `N` in the supported UI range
(1000-6000), after the rebuild triggered by the last resize of any
resize sequence, `cubeList` holds exactly `N` live objects, each with a
non-null `vertexUniform`, and no two live objects hold the same
`VertexUniform` reference. -/
theorem pool_after_resize_exact_and_unique (m : MathEnv)
    (hsv : ℝ → ℝ → ℝ → RGBColor) (rands : Nat → Nat → RandDraws)
    (ns : List Nat) (N : Nat) (hlo : 1000 ≤ N) (hhi : N ≤ 6000)
    (hns : ∀ n ∈ ns, 1000 ≤ n ∧ n ≤ 6000) :
    (resizeSeq m hsv rands (ns ++ [N]) emptyPool).cubeList.length = N ∧
    (∀ o ∈ (resizeSeq m hsv rands (ns ++ [N]) emptyPool).cubeList,
      o.vertexUniform.isSome) ∧
    ((resizeSeq m hsv rands (ns ++ [N]) emptyPool).cubeList.map
      (·.vertexUniform)).Nodup := by
  have h := resizeSeq_last m hsv N ns rands emptyPool emptyPool_inv
  exact ⟨h.1, (poolInv_live_facts _ h.2).1, (poolInv_live_facts _ h.2).2⟩

theorem pool_after_resize_exact_and_unique_witness :
    (1000 ≤ 1000 ∧ (1000 : Nat) ≤ 6000) ∧
    ((resizeSeq zeroMath constHSV (fun _ _ => zeroDraws) ([] ++ [1000])
        emptyPool).cubeList.length = 1000 ∧
      (∀ o ∈ (resizeSeq zeroMath constHSV (fun _ _ => zeroDraws)
          ([] ++ [1000]) emptyPool).cubeList, o.vertexUniform.isSome) ∧
      ((resizeSeq zeroMath constHSV (fun _ _ => zeroDraws) ([] ++ [1000])
          emptyPool).cubeList.map (·.vertexUniform)).Nodup) :=
  ⟨⟨by decide, by decide⟩,
    pool_after_resize_exact_and_unique zeroMath constHSV
      (fun _ _ => zeroDraws) [] 1000 (by decide) (by decide) (by simp)⟩

/-- C2: slot recycling never over-allocates.  After resizing `N1`, then
`N2 < N1`, then `N1` again, the number of `VertexUniform` buffers ever
created stays at most `max N1 N2`; after any resize sequence, every buffer
ever created is held by exactly one place (a live object or the free
list); and a rebuild whose requested count fits in the held slots creates
no buffer at all (a free slot is always reused before creating one). -/
theorem uniformSlot_recycling_no_overallocation (m : MathEnv)
    (hsv : ℝ → ℝ → ℝ → RGBColor) (rands : Nat → Nat → RandDraws)
    (N1 N2 : Nat) (hlt : N2 < N1) :
    (resizeSeq m hsv rands [N1, N2, N1] emptyPool).nextUniformId
        ≤ max N1 N2 ∧
    (∀ (ns : List Nat) (rands2 : Nat → Nat → RandDraws),
      PoolInv (resizeSeq m hsv rands2 ns emptyPool)) ∧
    (∀ (st : PoolState) (rand : Nat → RandDraws), PoolInv st →
      st.cubeNum ≤ st.cubeUniformList.length + st.cubeList.length →
      (resetInstance m hsv rand st).1.nextUniformId = st.nextUniformId) := by
  refine ⟨?_, ?_, ?_⟩
  · simp only [resizeSeq]
    have h1 := resize_spec m hsv (rands 0) emptyPool N1 emptyPool_inv
    have h2 := resize_spec m hsv (rands 1)
      (resize m hsv (rands 0) emptyPool N1) N2 h1.2.2
    have h3 := resize_spec m hsv (rands 2)
      (resize m hsv (rands 1) (resize m hsv (rands 0) emptyPool N1) N2)
      N1 h2.2.2
    rw [h3.2.1, h2.2.1, h1.2.1]
    simp only [emptyPool]
    omega
  · intro ns rands2
    exact resizeSeq_inv m hsv ns rands2 emptyPool emptyPool_inv
  · intro st rand hinv hle
    have hn := (resetInstance_spec m hsv rand st hinv).2.1
    have hc := poolInv_slot_count st hinv
    rw [hn]
    omega

theorem uniformSlot_recycling_no_overallocation_witness :
    1 < 2 ∧
    (resizeSeq zeroMath constHSV (fun _ _ => zeroDraws) [2, 1, 2]
        emptyPool).nextUniformId ≤ max 2 1 :=
  ⟨by decide,
    (uniformSlot_recycling_no_overallocation zeroMath constHSV
      (fun _ _ => zeroDraws) 2 1 (by decide)).1⟩

/-- A small concrete render state, used to instantiate theorems on
concrete inputs. -/
noncomputable def sampleState : RenderState :=
  { pool := emptyPool, lightHelper := {},
    cube := { vertexBuffer := 0, numVertices := 36 },
    model := { vertexBuffer := 1, numVertices := 1000 }, time := 0 }

/-- C3 counterexample: with a failed drawable acquisition, the tick does
NOT schedule the next tick (the claim says the loop still schedules and
runs it), and the render state HAS been mutated before the failure point
(`time` was already incremented), contradicting the claimed
drop-without-further-mutation.  The source dereferences the drawable
with no null check (`Main.ts` line 259), so the exception escapes
`render` before `requestAnimationFrame` at line 314. -/
theorem drawable_failure_not_absorbed_cex :
    (renderTick zeroMath none sampleState).2.scheduledNext = false ∧
    (renderTick zeroMath none sampleState).1.time = sampleState.time + 1 :=
  ⟨rfl, rfl⟩

/-- C3 amended: if acquiring the frame's presentable color target fails
during a tick, the tick aborts with an uncaught `surfaceUnavailable`
error: no pass is encoded, nothing is presented or committed, and the
next tick is NOT scheduled — the render loop terminates.  The state
mutations performed before the acquisition (frame counter, rotations,
light position) persist on the instance. -/
theorem drawable_failure_aborts_tick (m : MathEnv) (st : RenderState) :
    (renderTick m none st).2.error = some RenderError.surfaceUnavailable ∧
    (renderTick m none st).2.passes = [] ∧
    (renderTick m none st).2.presented = false ∧
    (renderTick m none st).2.committed = false ∧
    (renderTick m none st).2.scheduledNext = false ∧
    (renderTick m none st).1.time = st.time + 1 :=
  ⟨rfl, rfl, rfl, rfl, rfl, rfl⟩

/-- C4 counterexample: with WebGPU available and only the shader entry
point `vertex_main2` missing, `init` aborts (render never starts) but
surfaces NO visible capability/error message — the guard at `Main.ts`
line 103 is a bare `return`, only the WebGPU-absent branch at line 55
sets the error class.  This contradicts the claim that a visible message
is surfaced for missing shader entry points. -/
theorem missing_shader_silent_abort_cex :
    (init { webgpuSupported := true, libraryOk := true, hasVertexMain := true,
            hasVertexMain2 := false, hasFragmentMain := true }).errorClassSet
        = false ∧
    (init { webgpuSupported := true, libraryOk := true, hasVertexMain := true,
            hasVertexMain2 := false, hasFragmentMain := true }).renderStarted
        = false := by
  decide

/-- C4 amended: startup failures are fatal and terminal, but only the
WebGPU-absent branch surfaces a visible message.  If the graphics API is
absent, `init` sets the visible error class and stops without entering
the render loop; if the API is present but any of the three shader entry
points is missing, `init` stops without entering the render loop and
without surfacing any message; the render loop is entered only when the
API and all three entry points are present.  No retry exists in either
case (`init` runs once, straight-line). -/
theorem startup_failure_semantics (e : InitEnv) :
    (e.webgpuSupported = false →
      init e = { errorClassSet := true, crashed := false,
                 renderStarted := false }) ∧
    (e.webgpuSupported = true → e.libraryOk = true →
      (e.hasVertexMain && e.hasVertexMain2 && e.hasFragmentMain) = false →
      init e = { errorClassSet := false, crashed := false,
                 renderStarted := false }) ∧
    ((init e).renderStarted = true →
      e.webgpuSupported = true ∧ e.hasVertexMain = true ∧
        e.hasVertexMain2 = true ∧ e.hasFragmentMain = true) := by
  obtain ⟨w, l, v1, v2, f⟩ := e
  cases w <;> cases l <;> cases v1 <;> cases v2 <;> cases f <;>
    simp [init]

theorem startup_failure_semantics_witness :
    ((false = false) ∧
      init { webgpuSupported := false, libraryOk := true,
             hasVertexMain := true, hasVertexMain2 := true,
             hasFragmentMain := true }
        = { errorClassSet := true, crashed := false,
            renderStarted := false }) ∧
    init { webgpuSupported := true, libraryOk := true,
           hasVertexMain := true, hasVertexMain2 := false,
           hasFragmentMain := true }
      = { errorClassSet := false, crashed := false,
          renderStarted := false } :=
  ⟨⟨rfl,
    (startup_failure_semantics
      { webgpuSupported := false, libraryOk := true, hasVertexMain := true,
        hasVertexMain2 := true, hasFragmentMain := true }).1 rfl⟩,
    (startup_failure_semantics
      { webgpuSupported := true, libraryOk := true, hasVertexMain := true,
        hasVertexMain2 := false, hasFragmentMain := true }).2.1 rfl rfl rfl⟩

/-- C5: on every tick that acquires a drawable, exactly two passes are
encoded, in order; the first (instances, cube pipeline) captures clear
load actions for both the color and the depth attachment, the second
(light helper) captures load for both — so only pass 1 ever clears, and
pass 1 precedes pass 2 in the frame's command buffer. -/
theorem pass_load_action_invariant (m : MathEnv) (tex : Nat)
    (st : RenderState) :
    ∃ p1 p2, (renderTick m (some tex) st).2.passes = [p1, p2] ∧
      p1.colorLoadAction = LoadAction.clear ∧
      p1.depthLoadAction = LoadAction.clear ∧
      p2.colorLoadAction = LoadAction.load ∧
      p2.depthLoadAction = LoadAction.load ∧
      p1.pipeline = PipelineKind.cube ∧
      p2.pipeline = PipelineKind.lightHelper :=
  ⟨_, _, rfl, rfl, rfl, rfl, rfl, rfl, rfl⟩

/-- C6: every tick rewrites the pool through the per-object animation
step, and for every `t`, index `i` and object, exactly one of the two
branches keyed to `(t + i * 7)` applies: either `rotationY` is
incremented by 0.2 (with `rotationX` untouched) or `rotationX` is
incremented by 0.01 (with `rotationY` untouched) — never both, never
neither. -/
theorem animation_branches_mutually_exclusive :
    (∀ (m : MathEnv) (d : Option Nat) (st : RenderState),
      (renderTick m d st).1.pool.cubeList
        = animateList st.time 0 st.pool.cubeList) ∧
    (∀ (t i : Nat) (o : SceneObject),
      Xor'
        ((animateObj t i o).rotationY = o.rotationY + 0.2 ∧
          (animateObj t i o).rotationX = o.rotationX)
        ((animateObj t i o).rotationX = o.rotationX + 0.01 ∧
          (animateObj t i o).rotationY = o.rotationY)) := by
  constructor
  · intro m d st
    cases d <;> rfl
  · intro t i o
    by_cases h : ((t + i * 7) / 50) % 10 = 0
    · left
      refine ⟨⟨by simp [animateObj, h], by simp [animateObj, h]⟩, ?_⟩
      rintro ⟨hx, -⟩
      simp [animateObj, h] at hx
      linarith
    · right
      refine ⟨⟨by simp [animateObj, h], by simp [animateObj, h]⟩, ?_⟩
      rintro ⟨hy, -⟩
      simp [animateObj, h] at hy
      linarith

/-- C7: the material base color assigned during the rebuild is a pure
function of the object's (x, z) placement: two objects agreeing on x and
z receive the same color, whatever their y coordinate, rotations, scale,
uniform binding, or the random draws that produced the rest of their
placement. -/
theorem instance_color_pure_in_xz (m : MathEnv)
    (hsv : ℝ → ℝ → ℝ → RGBColor) (o₁ o₂ : SceneObject)
    (hx : o₁.x = o₂.x) (hz : o₁.z = o₂.z) :
    instanceColor m hsv o₁ = instanceColor m hsv o₂ := by
  simp [instanceColor, hx, hz]

theorem instance_color_pure_in_xz_witness :
    (({ x := 3, y := 7, z := 4, rotationX := 1,
        vertexUniform := some 0 } : SceneObject).x
      = ({ x := 3, y := -2, z := 4, rotationY := 5,
           vertexUniform := some 9 } : SceneObject).x) ∧
    (({ x := 3, y := 7, z := 4, rotationX := 1,
        vertexUniform := some 0 } : SceneObject).z
      = ({ x := 3, y := -2, z := 4, rotationY := 5,
           vertexUniform := some 9 } : SceneObject).z) ∧
    instanceColor zeroMath constHSV
        { x := 3, y := 7, z := 4, rotationX := 1, vertexUniform := some 0 }
      = instanceColor zeroMath constHSV
        { x := 3, y := -2, z := 4, rotationY := 5, vertexUniform := some 9 } :=
  ⟨rfl, rfl,
    instance_color_pure_in_xz zeroMath constHSV _ _ rfl rfl⟩

/-- C8: the second pass always binds the primitive cube's vertex buffer
and draws the cube's vertex count as one line strip, on every tick and
for every state — even when `useModel` makes the first pass bind the
loaded mesh instead. -/
theorem helper_pass_always_cube_geometry (m : MathEnv) (tex : Nat)
    (st : RenderState) :
    ∃ p1 p2, (renderTick m (some tex) st).2.passes = [p1, p2] ∧
      p2.vertexBuffer0 = st.cube.vertexBuffer ∧
      p2.primitiveType = PrimitiveType.linestrip ∧
      p2.vertexCount = st.cube.numVertices ∧
      p2.drawCalls = 1 ∧
      p1.vertexBuffer0
        = (if st.pool.useModel then st.model else st.cube).vertexBuffer :=
  ⟨_, _, rfl, rfl, rfl, rfl, rfl, rfl⟩

theorem animateObj_proj (t i : Nat) (o : SceneObject) :
    (animateObj t i o).vertexUniform = o.vertexUniform ∧
    (animateObj t i o).x = o.x ∧ (animateObj t i o).y = o.y ∧
    (animateObj t i o).z = o.z ∧ (animateObj t i o).scaleX = o.scaleX ∧
    (animateObj t i o).scaleY = o.scaleY ∧
    (animateObj t i o).scaleZ = o.scaleZ := by
  unfold animateObj
  split <;> simp

theorem animateList_map_eq {β : Type _} (g : SceneObject → β)
    (hg : ∀ t i o, g (animateObj t i o) = g o) (t : Nat) :
    ∀ (i : Nat) (l : List SceneObject), (animateList t i l).map g = l.map g
  | _, [] => rfl
  | i, o :: rest => by
    simp [animateList, hg, animateList_map_eq g hg t (i + 1) rest]

theorem animateList_length (t : Nat) :
    ∀ (i : Nat) (l : List SceneObject), (animateList t i l).length = l.length
  | _, [] => rfl
  | i, _ :: rest => by
    simp [animateList, animateList_length t (i + 1) rest]

/-- C9: a render tick — whether or not the drawable is acquired — leaves
the pool's size, every object's uniform binding, every object's position
and scale, the free list, and the buffer-creation counter untouched; it
increments only the frame counter (rotations and the light helper's
position are the other mutations).  No `VertexUniform` is created or
freed during a tick: those change only through `resetInstance`. -/
theorem render_tick_preserves_pool (m : MathEnv) (d : Option Nat)
    (st : RenderState) :
    (renderTick m d st).1.pool.cubeList.length
        = st.pool.cubeList.length ∧
    (renderTick m d st).1.pool.cubeList.map (·.vertexUniform)
        = st.pool.cubeList.map (·.vertexUniform) ∧
    (renderTick m d st).1.pool.cubeList.map
        (fun o => (o.x, o.y, o.z, o.scaleX, o.scaleY, o.scaleZ))
      = st.pool.cubeList.map
        (fun o => (o.x, o.y, o.z, o.scaleX, o.scaleY, o.scaleZ)) ∧
    (renderTick m d st).1.pool.cubeUniformList
        = st.pool.cubeUniformList ∧
    (renderTick m d st).1.pool.nextUniformId = st.pool.nextUniformId ∧
    (renderTick m d st).1.pool.cubeNum = st.pool.cubeNum ∧
    (renderTick m d st).1.pool.useModel = st.pool.useModel ∧
    (renderTick m d st).1.time = st.time + 1 ∧
    (renderTick m d st).1.cube = st.cube ∧
    (renderTick m d st).1.model = st.model := by
  have hlist : (renderTick m d st).1.pool.cubeList
      = animateList st.time 0 st.pool.cubeList := by cases d <;> rfl
  refine ⟨?_, ?_, ?_, ?_, ?_, ?_, ?_, ?_, ?_, ?_⟩
  · rw [hlist]; exact animateList_length st.time 0 st.pool.cubeList
  · rw [hlist]
    exact animateList_map_eq _ (fun t i o => (animateObj_proj t i o).1)
      st.time 0 st.pool.cubeList
  · rw [hlist]
    refine animateList_map_eq _ (fun t i o => ?_) st.time 0 st.pool.cubeList
    obtain ⟨-, h1, h2, h3, h4, h5, h6⟩ := animateObj_proj t i o
    simp [h1, h2, h3, h4, h5, h6]
  · cases d <;> rfl
  · cases d <;> rfl
  · cases d <;> rfl
  · cases d <;> rfl
  · cases d <;> rfl
  · cases d <;> rfl
  · cases d <;> rfl

/-- C10: the arguments the rebuild passes to `RGB.createFromHSV`, under
the real `Math`: placements exist inside the ±50 cube whose radial XZ
distance exceeds 62.5, and for every such placement the saturation
argument `0.8 * sqrt(x² + z²) / 50` exceeds 1; the hue argument
`atan2(z, x)` in degrees always lies in `(-180, 180]`, and is negative
for every placement with `z < 0`. -/
theorem color_args_range_facts (x z : ℝ) :
    (∃ a b : ℝ, -50 ≤ a ∧ a ≤ 50 ∧ -50 ≤ b ∧ b ≤ 50 ∧
      62.5 < Real.sqrt (a * a + b * b)) ∧
    (-50 ≤ x → x ≤ 50 → -50 ≤ z → z ≤ 50 →
      62.5 < Real.sqrt (x * x + z * z) → 1 < satArg x z) ∧
    hueArg x z ∈ Set.Ioc (-(180 : ℝ)) 180 ∧
    (z < 0 → hueArg x z < 0) := by
  have hpos : (0 : ℝ) < Real.pi / 180 := by positivity
  have hne : Real.pi ≠ 0 := Real.pi_ne_zero
  have hhue : hueArg x z = Complex.arg ⟨x, z⟩ / (Real.pi / 180) := rfl
  refine ⟨?_, ?_, ?_, ?_⟩
  · refine ⟨50, 50, by norm_num, by norm_num, by norm_num, by norm_num, ?_⟩
    exact (Real.lt_sqrt (by norm_num)).mpr (by norm_num)
  · intro _ _ _ _ hs
    have hsat : satArg x z
        = 0.8 * Real.sqrt (x * x + z * z) / (100 / 2) := rfl
    rw [hsat]
    linarith
  · have hmem := Complex.arg_mem_Ioc ⟨x, z⟩
    rw [Set.mem_Ioc] at hmem ⊢
    rw [hhue]
    have e1 : -Real.pi / (Real.pi / 180) = -180 := by
      field_simp
      ring
    have e2 : Real.pi / (Real.pi / 180) = (180 : ℝ) := by field_simp
    constructor
    · have h1 := (div_lt_div_iff_of_pos_right hpos).mpr hmem.1
      rw [e1] at h1
      exact h1
    · have h2 := (div_le_div_iff_of_pos_right hpos).mpr hmem.2
      rw [e2] at h2
      exact h2
  · intro hz
    have harg : Complex.arg ⟨x, z⟩ < 0 := Complex.arg_neg_iff.mpr hz
    rw [hhue]
    exact div_neg_of_neg_of_pos harg hpos

theorem color_args_range_facts_witness :
    ((-50 : ℝ) ≤ 50 ∧ (50 : ℝ) ≤ 50 ∧
      (62.5 : ℝ) < Real.sqrt (50 * 50 + 50 * 50) ∧ 1 < satArg 50 50) ∧
    ((-1 : ℝ) < 0 ∧ hueArg 1 (-1) < 0) := by
  have h50 : (62.5 : ℝ) < Real.sqrt (50 * 50 + 50 * 50) :=
    (Real.lt_sqrt (by norm_num)).mpr (by norm_num)
  refine ⟨⟨by norm_num, by norm_num, h50, ?_⟩, by norm_num, ?_⟩
  · exact (color_args_range_facts 50 50).2.1 (by norm_num) (by norm_num)
      (by norm_num) (by norm_num) h50
  · exact (color_args_range_facts 1 (-1)).2.2.2 (by norm_num)

end WebGPUWorld
